import Mathlib

/-!
Shallow embedding of the TFX model-rewriting core:
`tfx/components/trainer/rewriting/rewriter.py` (the `ModelDescription`
value type, the `ModelType` enum, the `BaseRewriter` contract and the
`perform_rewrite` orchestrator) and
`tfx/components/trainer/rewriting/tflite_rewriter.py` (the concrete
`TFLiteRewriter`).

The orchestrator is pure sequencing over the three rewriter methods plus
diagnostic logging, so it is embedded as a function that returns the
boolean result together with an explicit trace of events: one event per
rewriter-method invocation (recording the argument values passed) and one
event per emitted log message.  The trace makes call counts, call order
and argument fidelity provable.

`TFLiteRewriter.rewrite` calls external machinery (filesystem utilities
and the TFLite converter) that can raise exceptions; it is embedded in
the `Except` monad over an environment recording the outcome of each
external call site, mirroring the Python control flow in which only a
`ValueError` raised by `converter.convert()` is caught.
-/

/-- Embedding of the `ModelType` enum of `rewriter.py`. -/
inductive ModelType where
  | ANY_MODEL : ModelType
  | SAVED_MODEL : ModelType
  | TFLITE_MODEL : ModelType
deriving DecidableEq, Repr

/-- Embedding of the `ModelDescription` namedtuple of `rewriter.py`:
a `model_type` tag and an opaque `path` string. -/
structure ModelDescription where
  model_type : ModelType
  path : String
deriving DecidableEq, Repr

/-- Python `str()` of a `ModelType` member, as interpolated into the
diagnostic messages of `perform_rewrite`. -/
def ModelType.render : ModelType → String
  | ModelType.ANY_MODEL => "ModelType.ANY_MODEL"
  | ModelType.SAVED_MODEL => "ModelType.SAVED_MODEL"
  | ModelType.TFLITE_MODEL => "ModelType.TFLITE_MODEL"

/-- Python `str()` of a `ModelDescription` namedtuple, as interpolated
into the diagnostic messages of `perform_rewrite` (up to the quoting of
the path field, which the embedding leaves unquoted). -/
def ModelDescription.render (m : ModelDescription) : String :=
  "ModelDescription(model_type=" ++ m.model_type.render ++ ", path="
    ++ m.path ++ ")"

/-- Embedding of the `BaseRewriter` contract of `rewriter.py`: a name and
the three boolean-valued operations.  The methods are modelled as pure
functions of their arguments (the contract requires them to be
deterministic given fixed artifact state). -/
structure Rewriter where
  name : String
  pre_rewrite_validate : ModelDescription → Bool
  rewrite : ModelDescription → ModelDescription → Bool
  post_rewrite_validate : ModelDescription → Bool

/-- Observable events of a `perform_rewrite` run: one event per rewriter
method invocation, recording the argument values it was called with, and
one event per diagnostic message handed to `logging.error`. -/
inductive Event where
  | preCall (original_model : ModelDescription) : Event
  | rewriteCall (original_model rewritten_model : ModelDescription) : Event
  | postCall (rewritten_model : ModelDescription) : Event
  | logError (msg : String) : Event
deriving DecidableEq, Repr

/-- The diagnostic messages contained in a trace, in emission order. -/
def logMessages : List Event → List String
  | [] => []
  | Event.logError msg :: rest => msg :: logMessages rest
  | _ :: rest => logMessages rest

/-- Embedding of `perform_rewrite` of `rewriter.py`: invoke
`pre_rewrite_validate`, `rewrite` and `post_rewrite_validate` in order,
short-circuiting with a logged diagnostic and `False` at the first
failing step.  Returns the boolean result paired with the event trace of
the run. -/
def perform_rewrite (original_model rewritten_model : ModelDescription)
    (rw : Rewriter) : Bool × List Event :=
  if !(rw.pre_rewrite_validate original_model) then
    (false,
      [Event.preCall original_model,
       Event.logError (rw.name
         ++ " failed to perform pre-rewrite validation. Original model: "
         ++ original_model.render)])
  else if !(rw.rewrite original_model rewritten_model) then
    (false,
      [Event.preCall original_model,
       Event.rewriteCall original_model rewritten_model,
       Event.logError (rw.name ++ " failed to rewrite model. Original model: "
         ++ original_model.render)])
  else if !(rw.post_rewrite_validate rewritten_model) then
    (false,
      [Event.preCall original_model,
       Event.rewriteCall original_model rewritten_model,
       Event.postCall rewritten_model,
       Event.logError (rw.name
         ++ " failed to validate rewritten model. Rewritten model: "
         ++ rewritten_model.render)])
  else
    (true,
      [Event.preCall original_model,
       Event.rewriteCall original_model rewritten_model,
       Event.postCall rewritten_model])

/-- Exception classes relevant to `TFLiteRewriter.rewrite`: Python's
`ValueError` (the only class the method catches, around
`converter.convert()`) versus any other exception class. -/
inductive ExnKind where
  | valueError : ExnKind
  | otherError : ExnKind
deriving DecidableEq, Repr

/-- Outcomes of the external call sites inside `TFLiteRewriter.rewrite`
of `tflite_rewriter.py`, in the order the method reaches them.  Each
field records whether that call returns normally or raises (and with
which exception class).  The two asset-copying blocks (`isdir` test,
`mkdir` and `_copy_dir`) are each collapsed into a single outcome. -/
structure TFLiteEnv where
  makedirs : Except ExnKind Unit
  create_compatible_model : Except ExnKind Unit
  create_converter : Except ExnKind Unit
  convert : Except ExnKind Unit
  write_output : Except ExnKind Unit
  rmtree : Except ExnKind Unit
  copy_assets_block : Except ExnKind Unit
  copy_assets_extra_block : Except ExnKind Unit
deriving Repr

/-- Embedding of the configuration of `TFLiteRewriter.__init__` of
`tflite_rewriter.py`. -/
structure TFLiteRewriter where
  name : String
  filename : String
  enable_experimental_new_converter : Bool
  copy_assets : Bool
  copy_assets_extra : Bool
deriving Repr

/-- Embedding of `TFLiteRewriter.pre_rewrite_validate`: reject (with a
logged diagnostic, not modelled here) any original model whose type is
not `SAVED_MODEL`. -/
def TFLiteRewriter.pre_rewrite_validate (_r : TFLiteRewriter)
    (original_model : ModelDescription) : Bool :=
  if original_model.model_type != ModelType.SAVED_MODEL then false
  else true

/-- Embedding of `TFLiteRewriter.rewrite`.  Mirrors the Python control
flow: the target-type guard returns `false` normally; each subsequent
external call propagates its exception if it raises, except that the
`converter.convert()` call sits inside `try ... except ValueError`, whose
handler returns `false`.  A raised exception is an `Except.error` result;
a normal boolean return is `Except.ok`. -/
def TFLiteRewriter.rewrite (r : TFLiteRewriter) (env : TFLiteEnv)
    (_original_model rewritten_model : ModelDescription) :
    Except ExnKind Bool :=
  if !(rewritten_model.model_type == ModelType.TFLITE_MODEL
      || rewritten_model.model_type == ModelType.ANY_MODEL) then
    Except.ok false
  else match env.makedirs with
  | Except.error e => Except.error e
  | Except.ok _ =>
  match env.create_compatible_model with
  | Except.error e => Except.error e
  | Except.ok _ =>
  match env.create_converter with
  | Except.error e => Except.error e
  | Except.ok _ =>
  match env.convert with
  | Except.error ExnKind.valueError => Except.ok false
  | Except.error e => Except.error e
  | Except.ok _ =>
  match env.write_output with
  | Except.error e => Except.error e
  | Except.ok _ =>
  match env.rmtree with
  | Except.error e => Except.error e
  | Except.ok _ =>
  match (if r.copy_assets then env.copy_assets_block else Except.ok ()) with
  | Except.error e => Except.error e
  | Except.ok _ =>
  match (if r.copy_assets_extra then env.copy_assets_extra_block
         else Except.ok ()) with
  | Except.error e => Except.error e
  | Except.ok _ => Except.ok true

/-- Embedding of `TFLiteRewriter.post_rewrite_validate`: a stub that
returns `True` unconditionally. -/
def TFLiteRewriter.post_rewrite_validate (_r : TFLiteRewriter)
    (_rewritten_model : ModelDescription) : Bool :=
  true

/-- Sample original model reference, matching the literal example in the
spec. -/
def sampleOriginal : ModelDescription :=
  ModelDescription.mk ModelType.SAVED_MODEL "/m/src"

/-- Sample target model reference, matching the literal example in the
spec. -/
def sampleTarget : ModelDescription :=
  ModelDescription.mk ModelType.TFLITE_MODEL "/m/dst"

/-- A rewriter whose three steps all succeed. -/
def rwAllPass : Rewriter :=
  Rewriter.mk "my_rewriter" (fun _ => true) (fun _ _ => true) (fun _ => true)

/-- A rewriter whose pre-rewrite validation fails. -/
def rwPreFail : Rewriter :=
  Rewriter.mk "my_rewriter" (fun _ => false) (fun _ _ => true) (fun _ => true)

/-- A rewriter whose rewrite step fails. -/
def rwRewriteFail : Rewriter :=
  Rewriter.mk "my_rewriter" (fun _ => true) (fun _ _ => false) (fun _ => true)

/-- A rewriter whose post-rewrite validation fails. -/
def rwPostFail : Rewriter :=
  Rewriter.mk "my_rewriter" (fun _ => true) (fun _ _ => true) (fun _ => false)

theorem logMessages_nil : logMessages [] = [] := rfl

theorem logMessages_pre (o : ModelDescription) (rest : List Event) :
    logMessages (Event.preCall o :: rest) = logMessages rest := rfl

theorem logMessages_rewriteCall (o t : ModelDescription) (rest : List Event) :
    logMessages (Event.rewriteCall o t :: rest) = logMessages rest := rfl

theorem logMessages_post (t : ModelDescription) (rest : List Event) :
    logMessages (Event.postCall t :: rest) = logMessages rest := rfl

theorem logMessages_log (m : String) (rest : List Event) :
    logMessages (Event.logError m :: rest) = m :: logMessages rest := rfl

/-- C1: for a rewriter whose `pre_rewrite_validate`, `rewrite` and
`post_rewrite_validate` all return true, `perform_rewrite` returns true
and the trace is exactly one `pre_rewrite_validate` call, then one
`rewrite` call, then one `post_rewrite_validate` call: each step is
invoked exactly once, in that order. -/
theorem perform_rewrite_all_pass (o t : ModelDescription) (rw : Rewriter)
    (hpre : rw.pre_rewrite_validate o = true)
    (hrew : rw.rewrite o t = true)
    (hpost : rw.post_rewrite_validate t = true) :
    perform_rewrite o t rw =
      (true, [Event.preCall o, Event.rewriteCall o t, Event.postCall t]) := by
  simp [perform_rewrite, hpre, hrew, hpost]

theorem perform_rewrite_all_pass_witness :
    perform_rewrite sampleOriginal sampleTarget rwAllPass =
      (true, [Event.preCall sampleOriginal,
              Event.rewriteCall sampleOriginal sampleTarget,
              Event.postCall sampleTarget]) :=
  perform_rewrite_all_pass sampleOriginal sampleTarget rwAllPass rfl rfl rfl

/-- C2: for a rewriter whose `pre_rewrite_validate` returns false on the
original reference, `perform_rewrite` returns false, the trace is the
single validation call followed by the diagnostic, and neither `rewrite`
nor `post_rewrite_validate` is ever invoked. -/
theorem perform_rewrite_pre_fail (o t : ModelDescription) (rw : Rewriter)
    (hpre : rw.pre_rewrite_validate o = false) :
    (perform_rewrite o t rw).1 = false ∧
    (perform_rewrite o t rw).2 =
      [Event.preCall o,
       Event.logError (rw.name
         ++ " failed to perform pre-rewrite validation. Original model: "
         ++ o.render)] ∧
    (∀ a b : ModelDescription,
      Event.rewriteCall a b ∉ (perform_rewrite o t rw).2) ∧
    (∀ a : ModelDescription, Event.postCall a ∉ (perform_rewrite o t rw).2) := by
  simp [perform_rewrite, hpre]

theorem perform_rewrite_pre_fail_witness :
    (perform_rewrite sampleOriginal sampleTarget rwPreFail).1 = false ∧
    (perform_rewrite sampleOriginal sampleTarget rwPreFail).2 =
      [Event.preCall sampleOriginal,
       Event.logError (rwPreFail.name
         ++ " failed to perform pre-rewrite validation. Original model: "
         ++ sampleOriginal.render)] ∧
    (∀ a b : ModelDescription,
      Event.rewriteCall a b ∉ (perform_rewrite sampleOriginal sampleTarget rwPreFail).2) ∧
    (∀ a : ModelDescription,
      Event.postCall a ∉ (perform_rewrite sampleOriginal sampleTarget rwPreFail).2) :=
  perform_rewrite_pre_fail sampleOriginal sampleTarget rwPreFail rfl

/-- C3: for a rewriter whose `pre_rewrite_validate` returns true and
whose `rewrite` returns false on the given references, `perform_rewrite`
returns false and `post_rewrite_validate` is never invoked. -/
theorem perform_rewrite_rewrite_fail (o t : ModelDescription) (rw : Rewriter)
    (hpre : rw.pre_rewrite_validate o = true)
    (hrew : rw.rewrite o t = false) :
    (perform_rewrite o t rw).1 = false ∧
    (perform_rewrite o t rw).2 =
      [Event.preCall o, Event.rewriteCall o t,
       Event.logError (rw.name ++ " failed to rewrite model. Original model: "
         ++ o.render)] ∧
    (∀ a : ModelDescription, Event.postCall a ∉ (perform_rewrite o t rw).2) := by
  simp [perform_rewrite, hpre, hrew]

theorem perform_rewrite_rewrite_fail_witness :
    (perform_rewrite sampleOriginal sampleTarget rwRewriteFail).1 = false ∧
    (perform_rewrite sampleOriginal sampleTarget rwRewriteFail).2 =
      [Event.preCall sampleOriginal,
       Event.rewriteCall sampleOriginal sampleTarget,
       Event.logError (rwRewriteFail.name
         ++ " failed to rewrite model. Original model: "
         ++ sampleOriginal.render)] ∧
    (∀ a : ModelDescription,
      Event.postCall a ∉ (perform_rewrite sampleOriginal sampleTarget rwRewriteFail).2) :=
  perform_rewrite_rewrite_fail sampleOriginal sampleTarget rwRewriteFail rfl rfl

/-- C4: for a rewriter whose `pre_rewrite_validate` and `rewrite` return
true and whose `post_rewrite_validate` returns false, `perform_rewrite`
returns false and the trace shows all three operations invoked exactly
once each, in order, followed by the diagnostic. -/
theorem perform_rewrite_post_fail (o t : ModelDescription) (rw : Rewriter)
    (hpre : rw.pre_rewrite_validate o = true)
    (hrew : rw.rewrite o t = true)
    (hpost : rw.post_rewrite_validate t = false) :
    perform_rewrite o t rw =
      (false,
        [Event.preCall o, Event.rewriteCall o t, Event.postCall t,
         Event.logError (rw.name
           ++ " failed to validate rewritten model. Rewritten model: "
           ++ t.render)]) := by
  simp [perform_rewrite, hpre, hrew, hpost]

theorem perform_rewrite_post_fail_witness :
    perform_rewrite sampleOriginal sampleTarget rwPostFail =
      (false,
        [Event.preCall sampleOriginal,
         Event.rewriteCall sampleOriginal sampleTarget,
         Event.postCall sampleTarget,
         Event.logError (rwPostFail.name
           ++ " failed to validate rewritten model. Rewritten model: "
           ++ sampleTarget.render)]) :=
  perform_rewrite_post_fail sampleOriginal sampleTarget rwPostFail rfl rfl rfl

/-- C5: on every failing run of `perform_rewrite` exactly one diagnostic
message is emitted, containing the rewriter name and the rendering of the
relevant model reference (the original when `pre_rewrite_validate` or
`rewrite` fails, the target when `post_rewrite_validate` fails); on a
fully successful run no diagnostic message is emitted. -/
theorem perform_rewrite_diagnostics (o t : ModelDescription) (rw : Rewriter) :
    ((perform_rewrite o t rw).1 = true →
      logMessages (perform_rewrite o t rw).2 = []) ∧
    (rw.pre_rewrite_validate o = false →
      logMessages (perform_rewrite o t rw).2 =
        [rw.name
          ++ " failed to perform pre-rewrite validation. Original model: "
          ++ o.render]) ∧
    (rw.pre_rewrite_validate o = true → rw.rewrite o t = false →
      logMessages (perform_rewrite o t rw).2 =
        [rw.name ++ " failed to rewrite model. Original model: "
          ++ o.render]) ∧
    (rw.pre_rewrite_validate o = true → rw.rewrite o t = true →
      rw.post_rewrite_validate t = false →
      logMessages (perform_rewrite o t rw).2 =
        [rw.name ++ " failed to validate rewritten model. Rewritten model: "
          ++ t.render]) := by
  refine ⟨?_, ?_, ?_, ?_⟩
  · intro hres
    cases hpre : rw.pre_rewrite_validate o with
    | false => simp [perform_rewrite, hpre] at hres
    | true =>
      cases hrew : rw.rewrite o t with
      | false => simp [perform_rewrite, hpre, hrew] at hres
      | true =>
        cases hpost : rw.post_rewrite_validate t with
        | false => simp [perform_rewrite, hpre, hrew, hpost] at hres
        | true =>
          simp [perform_rewrite, hpre, hrew, hpost, logMessages_pre,
            logMessages_rewriteCall, logMessages_post, logMessages_nil]
  · intro hpre
    simp [perform_rewrite, hpre, logMessages_pre, logMessages_log,
      logMessages_nil]
  · intro hpre hrew
    simp [perform_rewrite, hpre, hrew, logMessages_pre,
      logMessages_rewriteCall, logMessages_log, logMessages_nil]
  · intro hpre hrew hpost
    simp [perform_rewrite, hpre, hrew, hpost, logMessages_pre,
      logMessages_rewriteCall, logMessages_post, logMessages_log,
      logMessages_nil]

theorem perform_rewrite_diagnostics_witness :
    logMessages (perform_rewrite sampleOriginal sampleTarget rwPreFail).2 =
      [rwPreFail.name
        ++ " failed to perform pre-rewrite validation. Original model: "
        ++ sampleOriginal.render] :=
  (perform_rewrite_diagnostics sampleOriginal sampleTarget rwPreFail).2.1 rfl

/-- C7: every `pre_rewrite_validate` and `rewrite` invocation recorded in
a `perform_rewrite` trace received exactly the `original` argument of
`perform_rewrite`, and every `rewrite` and `post_rewrite_validate`
invocation received exactly its `target` argument: the orchestrator never
modifies or substitutes either reference. -/
theorem perform_rewrite_argument_fidelity (o t : ModelDescription)
    (rw : Rewriter) :
    (∀ a : ModelDescription,
      Event.preCall a ∈ (perform_rewrite o t rw).2 → a = o) ∧
    (∀ a b : ModelDescription,
      Event.rewriteCall a b ∈ (perform_rewrite o t rw).2 → a = o ∧ b = t) ∧
    (∀ a : ModelDescription,
      Event.postCall a ∈ (perform_rewrite o t rw).2 → a = t) := by
  cases hpre : rw.pre_rewrite_validate o <;>
    cases hrew : rw.rewrite o t <;>
      cases hpost : rw.post_rewrite_validate t <;>
        simp [perform_rewrite, hpre, hrew, hpost]

theorem perform_rewrite_argument_fidelity_witness :
    ModelDescription.mk ModelType.SAVED_MODEL "/m/src" = sampleOriginal :=
  (perform_rewrite_argument_fidelity sampleOriginal sampleTarget
      rwAllPass).1 (ModelDescription.mk ModelType.SAVED_MODEL "/m/src")
    (by decide)

/-- C8: two `ModelDescription` values compare equal exactly when their
`model_type` fields are equal and their `path` fields are equal,
regardless of how each was constructed. -/
theorem modelDescription_eq_iff (m₁ m₂ : ModelDescription) :
    m₁ = m₂ ↔ m₁.model_type = m₂.model_type ∧ m₁.path = m₂.path := by
  cases m₁
  cases m₂
  simp

/-- C9: `TFLiteRewriter.post_rewrite_validate` returns true for every
rewritten model reference, unconditionally. -/
theorem tflite_post_rewrite_validate_always_true (r : TFLiteRewriter)
    (m : ModelDescription) :
    TFLiteRewriter.post_rewrite_validate r m = true := rfl

/-- Sample TFLiteRewriter configuration, mirroring the constructor
defaults of `TFLiteRewriter.__init__`. -/
def sampleTFLiteRewriter : TFLiteRewriter :=
  TFLiteRewriter.mk "my_rewriter" "tflite" false true true

/-- C10: `TFLiteRewriter.pre_rewrite_validate` returns true exactly when
the original model type is `SAVED_MODEL`, and its verdict depends only on
the `model_type` field: two references with the same type receive the
same verdict whatever their paths. -/
theorem tflite_pre_rewrite_validate_iff_saved_model (r : TFLiteRewriter)
    (m : ModelDescription) :
    (TFLiteRewriter.pre_rewrite_validate r m = true ↔
      m.model_type = ModelType.SAVED_MODEL) ∧
    (∀ m₂ : ModelDescription, m₂.model_type = m.model_type →
      TFLiteRewriter.pre_rewrite_validate r m₂ =
        TFLiteRewriter.pre_rewrite_validate r m) := by
  constructor
  · by_cases h : m.model_type = ModelType.SAVED_MODEL <;>
      simp [TFLiteRewriter.pre_rewrite_validate, h]
  · intro m₂ h
    simp [TFLiteRewriter.pre_rewrite_validate, h]

theorem tflite_pre_rewrite_validate_iff_saved_model_witness :
    TFLiteRewriter.pre_rewrite_validate sampleTFLiteRewriter
      sampleOriginal = true :=
  (tflite_pre_rewrite_validate_iff_saved_model sampleTFLiteRewriter
      sampleOriginal).1.mpr rfl

/-- An environment in which `tf.io.gfile.makedirs` raises a
non-`ValueError` exception (for example a filesystem error) and every
other external call would return normally. -/
def envMakedirsRaises : TFLiteEnv :=
  TFLiteEnv.mk (Except.error ExnKind.otherError) (Except.ok ())
    (Except.ok ()) (Except.ok ()) (Except.ok ()) (Except.ok ())
    (Except.ok ()) (Except.ok ())

/-- An environment in which `converter.convert()` raises a `ValueError`
and every other external call returns normally. -/
def envConvertValueError : TFLiteEnv :=
  TFLiteEnv.mk (Except.ok ()) (Except.ok ()) (Except.ok ())
    (Except.error ExnKind.valueError) (Except.ok ()) (Except.ok ())
    (Except.ok ()) (Except.ok ())

/-- C6 counterexample: with a valid target reference, a failure of the
filesystem call `tf.io.gfile.makedirs` inside `TFLiteRewriter.rewrite`
escapes the method as an exception instead of being converted to a
boolean false return, contradicting the claim that every internal failure
is caught inside `rewrite`. -/
theorem tflite_rewrite_exception_escapes :
    TFLiteRewriter.rewrite sampleTFLiteRewriter envMakedirsRaises
        sampleOriginal sampleTarget = Except.error ExnKind.otherError ∧
    TFLiteRewriter.rewrite sampleTFLiteRewriter envMakedirsRaises
        sampleOriginal sampleTarget ≠ Except.ok false := by
  constructor
  · rfl
  · intro h
    exact absurd h (by simp [TFLiteRewriter.rewrite, envMakedirsRaises,
      sampleTarget])

/-- C6 amended: `TFLiteRewriter.rewrite` catches only a `ValueError`
raised by the conversion call `converter.convert()`, converting it to a
boolean false return; an exception raised by any other machinery invoked
within `rewrite` — `tf.io.gfile.makedirs`, the compatible-model
preparation, the converter construction, the output write, the temporary
directory removal, either asset-copying block — or a non-`ValueError`
exception from the converter, propagates out of `rewrite` unchanged.
Each escape conjunct describes the run in which that call site is the
first to raise. -/
theorem tflite_rewrite_catches_only_convert_value_error
    (r : TFLiteRewriter) (env : TFLiteEnv) (o t : ModelDescription)
    (htype : t.model_type = ModelType.TFLITE_MODEL ∨
      t.model_type = ModelType.ANY_MODEL) :
    (env.makedirs = Except.ok () →
      env.create_compatible_model = Except.ok () →
      env.create_converter = Except.ok () →
      env.convert = Except.error ExnKind.valueError →
      TFLiteRewriter.rewrite r env o t = Except.ok false) ∧
    (∀ e : ExnKind, env.makedirs = Except.error e →
      TFLiteRewriter.rewrite r env o t = Except.error e) ∧
    (∀ e : ExnKind, env.makedirs = Except.ok () →
      env.create_compatible_model = Except.error e →
      TFLiteRewriter.rewrite r env o t = Except.error e) ∧
    (∀ e : ExnKind, env.makedirs = Except.ok () →
      env.create_compatible_model = Except.ok () →
      env.create_converter = Except.error e →
      TFLiteRewriter.rewrite r env o t = Except.error e) ∧
    (env.makedirs = Except.ok () →
      env.create_compatible_model = Except.ok () →
      env.create_converter = Except.ok () →
      env.convert = Except.error ExnKind.otherError →
      TFLiteRewriter.rewrite r env o t =
        Except.error ExnKind.otherError) ∧
    (∀ e : ExnKind, env.makedirs = Except.ok () →
      env.create_compatible_model = Except.ok () →
      env.create_converter = Except.ok () →
      env.convert = Except.ok () →
      env.write_output = Except.error e →
      TFLiteRewriter.rewrite r env o t = Except.error e) ∧
    (∀ e : ExnKind, env.makedirs = Except.ok () →
      env.create_compatible_model = Except.ok () →
      env.create_converter = Except.ok () →
      env.convert = Except.ok () →
      env.write_output = Except.ok () →
      env.rmtree = Except.error e →
      TFLiteRewriter.rewrite r env o t = Except.error e) ∧
    (∀ e : ExnKind, env.makedirs = Except.ok () →
      env.create_compatible_model = Except.ok () →
      env.create_converter = Except.ok () →
      env.convert = Except.ok () →
      env.write_output = Except.ok () →
      env.rmtree = Except.ok () →
      r.copy_assets = true →
      env.copy_assets_block = Except.error e →
      TFLiteRewriter.rewrite r env o t = Except.error e) ∧
    (∀ e : ExnKind, env.makedirs = Except.ok () →
      env.create_compatible_model = Except.ok () →
      env.create_converter = Except.ok () →
      env.convert = Except.ok () →
      env.write_output = Except.ok () →
      env.rmtree = Except.ok () →
      (if r.copy_assets then env.copy_assets_block
        else Except.ok ()) = Except.ok () →
      r.copy_assets_extra = true →
      env.copy_assets_extra_block = Except.error e →
      TFLiteRewriter.rewrite r env o t = Except.error e) := by
  have hguard : (t.model_type == ModelType.TFLITE_MODEL
      || t.model_type == ModelType.ANY_MODEL) = true := by
    rcases htype with h | h <;> simp [h]
  refine ⟨?_, ?_, ?_, ?_, ?_, ?_, ?_, ?_, ?_⟩ <;>
    intros <;> simp_all [TFLiteRewriter.rewrite, hguard] <;> tauto

theorem tflite_rewrite_catches_only_convert_value_error_witness :
    TFLiteRewriter.rewrite sampleTFLiteRewriter envConvertValueError
        sampleOriginal sampleTarget = Except.ok false :=
  (tflite_rewrite_catches_only_convert_value_error sampleTFLiteRewriter
      envConvertValueError sampleOriginal sampleTarget
      (Or.inl rfl)).1 rfl rfl rfl rfl
